import Mathlib

/-!
# Verification of the refresh-token authentication subsystem

Shallow embedding of the authentication core of the MERN blog platform:
the JWT token codec (`backend/src/utils/jwt.js`), the `AuthService`
session manager (`services/authService.js`), and the user credential
store it mutates.

Modelling conventions:
* A signed JWT string is represented by the record `Token` holding the
  custom payload together with the registered claims (`iat`, `exp`,
  `iss`, `aud`) and the secret it was signed with.  HS256 signing is
  deterministic, so two JWT strings are equal exactly when header,
  payload and secret coincide; structural equality of `Token` models
  string equality of the serialized tokens.
* `jwt.verify` checks the signature first, then expiry, then the
  issuer/audience claims, mirroring the jsonwebtoken library's order;
  a wrong secret surfaces as `JsonWebTokenError` (`invalid`), a
  passed expiry as `TokenExpiredError` (`expired`).
* Time is an abstract `Nat` of seconds passed explicitly to every
  operation that reads the clock.
* The document store is a `List User`; `findOne`/`findById` return the
  first matching document, and a write replaces the documents with the
  matching id.  Operations return the updated store next to the
  `Except` result because some failures (refresh-token reuse) persist
  a state change before throwing.
* The `models/User.js` schema file is not part of the provided
  sources; its instance methods (`comparePassword`,
  `addRefreshToken`, `removeRefreshToken`, `clearRefreshTokens`) and
  the password pre-save hashing hook are modelled from the spec, as
  flagged on each definition.
-/

/-- Error taxonomy of `backend/src/utils/errors.js`, restricted to the
kinds used by the authentication core. -/
inductive AppError where
  | authentication (msg : String)
  | conflict (msg : String)
  | notFound (msg : String)
deriving DecidableEq, Repr

/-- The environment configuration read by `jwt.js`: `JWT_SECRET`,
`JWT_REFRESH_SECRET` and the two expiry windows (seconds). -/
structure Config where
  jwtSecret : String
  jwtRefreshSecret : String
  jwtExpire : Nat
  jwtRefreshExpire : Nat
deriving DecidableEq, Repr

/-- A JWT payload object.  Access tokens carry all four fields,
refresh tokens only `userId`; absent fields are `none`, as in a JS
object without those keys. -/
structure Payload where
  userId : Nat
  username : Option String := none
  email : Option String := none
  role : Option String := none
deriving DecidableEq, Repr

/-- A signed JWT.  The `secret` field models the HMAC signature: a
verifier presenting the same secret accepts it, any other secret
rejects it. -/
structure Token where
  payload : Payload
  iat : Nat
  exp : Nat
  iss : String
  aud : String
  secret : String
deriving DecidableEq, Repr

deriving instance DecidableEq for Except

/-- Outcome classes of `jwt.verify`: `TokenExpiredError` vs
`JsonWebTokenError` (bad signature / issuer / audience). -/
inductive JwtError where
  | expired
  | invalid
deriving DecidableEq, Repr

/-- `jwt.sign(payload, secret, {expiresIn, issuer, audience})` at
clock time `now`. -/
def jwtSign (payload : Payload) (secret : String) (expiresIn : Nat)
    (iss aud : String) (now : Nat) : Token :=
  { payload := payload, iat := now, exp := now + expiresIn,
    iss := iss, aud := aud, secret := secret }

/-- `jwt.verify(token, secret, {issuer, audience})` at clock time
`now`: signature first, then expiry, then issuer/audience. -/
def jwtVerify (tok : Token) (secret : String) (iss aud : String)
    (now : Nat) : Except JwtError Payload :=
  if tok.secret ≠ secret then .error .invalid
  else if tok.exp ≤ now then .error .expired
  else if tok.iss ≠ iss ∨ tok.aud ≠ aud then .error .invalid
  else .ok tok.payload

/-- The issuer string hardcoded in `jwt.js`. -/
def jwtIssuer : String := "blog-platform"

/-- The audience string hardcoded in `jwt.js`. -/
def jwtAudience : String := "blog-platform-users"

/-- `generateAccessToken(payload)`: sign with `JWT_SECRET` and the
access expiry. -/
def generateAccessToken (cfg : Config) (now : Nat) (payload : Payload) : Token :=
  jwtSign payload cfg.jwtSecret cfg.jwtExpire jwtIssuer jwtAudience now

/-- `generateRefreshToken(payload)`: sign with `JWT_REFRESH_SECRET`
and the refresh expiry. -/
def generateRefreshToken (cfg : Config) (now : Nat) (payload : Payload) : Token :=
  jwtSign payload cfg.jwtRefreshSecret cfg.jwtRefreshExpire jwtIssuer jwtAudience now

/-- `verifyAccessToken(token)`: verify against `JWT_SECRET`, mapping
`TokenExpiredError` and `JsonWebTokenError` to the two
`AuthenticationError` messages of `jwt.js`. -/
def verifyAccessToken (cfg : Config) (now : Nat) (tok : Token) :
    Except AppError Payload :=
  match jwtVerify tok cfg.jwtSecret jwtIssuer jwtAudience now with
  | .ok p => .ok p
  | .error .expired => .error (.authentication "Access token has expired")
  | .error .invalid => .error (.authentication "Invalid access token")

/-- `verifyRefreshToken(token)`: verify against `JWT_REFRESH_SECRET`,
with the refresh-specific error messages of `jwt.js`. -/
def verifyRefreshToken (cfg : Config) (now : Nat) (tok : Token) :
    Except AppError Payload :=
  match jwtVerify tok cfg.jwtRefreshSecret jwtIssuer jwtAudience now with
  | .ok p => .ok p
  | .error .expired => .error (.authentication "Refresh token has expired")
  | .error .invalid => .error (.authentication "Invalid refresh token")

/-- One entry of `User.refreshTokens`; the service reads its `token`
field (`rt.token === refreshToken` in `authService.js`). -/
structure RefreshTokenEntry where
  token : Token
deriving DecidableEq, Repr

/-- The `User` document, restricted to the fields the authentication
core reads or writes.  `password` stores the bcrypt hash. -/
structure User where
  id : Nat
  username : String
  email : String
  password : String
  firstName : String
  lastName : String
  role : String
  isActive : Bool
  avatar : String
  bio : String
  emailVerified : Bool
  lastLogin : Option Nat
  refreshTokens : List RefreshTokenEntry
deriving DecidableEq, Repr

/-- Modelled from the spec: `passwordHash` is an "irreversible hash of
the user's password" (the bcrypt pre-save hook of the absent
`models/User.js`).  An injective tagging models hashing; nothing below
depends on more than determinism and the tag. -/
def hashPassword (p : String) : String :=
  "bcrypt$" ++ p

/-- Modelled from the spec: `user.comparePassword(candidate)` is the
bcrypt comparison of the candidate against the stored hash (absent
`models/User.js`). -/
def User.comparePassword (u : User) (candidate : String) : Bool :=
  hashPassword candidate == u.password

/-- Modelled from the spec: `user.addRefreshToken(t)` appends the new
refresh token to `user.refreshTokens` and persists ("append the new
refresh token string to `user.refreshTokens` → persist"; absent
`models/User.js`). -/
def User.addRefreshToken (u : User) (t : Token) : User :=
  { u with refreshTokens := u.refreshTokens ++ [{ token := t }] }

/-- Modelled from the spec: `user.removeRefreshToken(t)` removes the
presented token from the set, a no-op when absent ("removes exactly
the one presented token from the user's set, if present"; absent
`models/User.js`). -/
def User.removeRefreshToken (u : User) (t : Token) : User :=
  { u with refreshTokens := u.refreshTokens.filter (fun e => e.token != t) }

/-- Modelled from the spec: `user.clearRefreshTokens()` empties the
whole set ("clears the entire `refreshTokens` set"; absent
`models/User.js`). -/
def User.clearRefreshTokens (u : User) : User :=
  { u with refreshTokens := [] }

/-- `User.findById(i)` on the document store: first document with the
requested id. -/
def findById (db : List User) (i : Nat) : Option User :=
  db.find? (fun u => u.id == i)

/-- Persisting a modified user document: every document carrying its
id is replaced. -/
def updateUser (db : List User) (u : User) : List User :=
  db.map (fun v => if v.id = u.id then u else v)

/-- The "public-safe user projection" returned by `generateTokens`
(excludes the password hash and the refresh-token list). -/
structure PublicUser where
  id : Nat
  username : String
  email : String
  firstName : String
  lastName : String
  role : String
  avatar : String
  emailVerified : Bool
deriving DecidableEq, Repr

/-- The token pair returned by the issuance sequence. -/
structure TokenPair where
  accessToken : Token
  refreshToken : Token
deriving DecidableEq, Repr

/-- Return value of `register` / `login` / `refreshToken`. -/
structure AuthResult where
  user : PublicUser
  tokens : TokenPair
deriving DecidableEq, Repr

/-- The body of a registration request. -/
structure RegisterData where
  username : String
  email : String
  password : String
  firstName : String
  lastName : String
  role : Option String
deriving DecidableEq, Repr

namespace AuthService

/-- `AuthService.generateTokens(user)`: build claims from the user
record, sign both tokens, append the refresh token to the user's set
(persisted by the caller through `updateUser`), and return the public
projection with the pair. -/
def generateTokens (cfg : Config) (now : Nat) (u : User) : User × AuthResult :=
  let payload : Payload :=
    { userId := u.id, username := some u.username,
      email := some u.email, role := some u.role }
  let accessToken := generateAccessToken cfg now payload
  let refreshToken := generateRefreshToken cfg now { userId := u.id }
  let u' := u.addRefreshToken refreshToken
  (u', { user := { id := u.id, username := u.username, email := u.email,
                   firstName := u.firstName, lastName := u.lastName,
                   role := u.role, avatar := u.avatar,
                   emailVerified := u.emailVerified },
         tokens := { accessToken := accessToken, refreshToken := refreshToken } })

/-- `AuthService.register(userData)`: single `findOne` over
`{$or: [{email}, {username}]}`, email-field check on the hit, else
create the user (password hashed by the pre-save hook, role defaulted
to `user`) and run the issuance sequence.  `newId` is the id the store
assigns to the created document. -/
def register (cfg : Config) (db : List User) (now : Nat) (newId : Nat)
    (d : RegisterData) : List User × Except AppError AuthResult :=
  match db.find? (fun u => u.email == d.email || u.username == d.username) with
  | some existingUser =>
    if existingUser.email == d.email then
      (db, .error (.conflict "Email already registered"))
    else
      (db, .error (.conflict "Username already taken"))
  | none =>
    let user : User :=
      { id := newId, username := d.username, email := d.email,
        password := hashPassword d.password,
        firstName := d.firstName, lastName := d.lastName,
        role := d.role.getD "user",
        isActive := true, avatar := "", bio := "",
        emailVerified := false, lastLogin := none, refreshTokens := [] }
    let (u', res) := generateTokens cfg now user
    (db ++ [u'], .ok res)

/-- `AuthService.login(email, password)`: find by email, reject
missing or inactive users and failed password comparisons with one
identical error, otherwise stamp `lastLogin` and issue tokens. -/
def login (cfg : Config) (db : List User) (now : Nat)
    (email password : String) : List User × Except AppError AuthResult :=
  match db.find? (fun u => u.email == email) with
  | none => (db, .error (.authentication "Invalid email or password"))
  | some user =>
    if user.isActive = false then
      (db, .error (.authentication "Invalid email or password"))
    else if user.comparePassword password then
      let u1 := { user with lastLogin := some now }
      let (u2, res) := generateTokens cfg now u1
      (updateUser db u2, .ok res)
    else
      (db, .error (.authentication "Invalid email or password"))

/-- `AuthService.refreshToken(refreshToken)`: verify, load the named
user, demand membership in `user.refreshTokens` (clearing all tokens
and failing on a miss), then rotate: remove the presented token and
run the issuance sequence. -/
def refreshToken (cfg : Config) (db : List User) (now : Nat)
    (rt : Token) : List User × Except AppError AuthResult :=
  match verifyRefreshToken cfg now rt with
  | .error e => (db, .error e)
  | .ok decoded =>
    match findById db decoded.userId with
    | none => (db, .error (.authentication "User not found or inactive"))
    | some user =>
      if user.isActive = false then
        (db, .error (.authentication "User not found or inactive"))
      else if user.refreshTokens.any (fun e => e.token == rt) then
        let u1 := user.removeRefreshToken rt
        let (u2, res) := generateTokens cfg now u1
        (updateUser db u2, .ok res)
      else
        (updateUser db user.clearRefreshTokens,
         .error (.authentication "Invalid refresh token"))

/-- `AuthService.logout(userId, refreshToken)`: remove the presented
token when both the user and a token are present; otherwise do
nothing.  Never fails (`none` models an omitted / falsy token). -/
def logout (db : List User) (userId : Nat) (rt : Option Token) :
    List User × Except AppError Unit :=
  match findById db userId with
  | some user =>
    match rt with
    | some t => (updateUser db (user.removeRefreshToken t), .ok ())
    | none => (db, .ok ())
  | none => (db, .ok ())

/-- `AuthService.logoutAll(userId)`: clear the whole token set when
the user exists.  Never fails. -/
def logoutAll (db : List User) (userId : Nat) :
    List User × Except AppError Unit :=
  match findById db userId with
  | some user => (updateUser db user.clearRefreshTokens, .ok ())
  | none => (db, .ok ())

/-- `AuthService.changePassword(userId, currentPassword, newPassword)`:
verify the current password, store the new hash, then clear every
refresh token. -/
def changePassword (db : List User) (userId : Nat)
    (currentPassword newPassword : String) :
    List User × Except AppError String :=
  match findById db userId with
  | none => (db, .error (.notFound "User not found"))
  | some user =>
    if user.comparePassword currentPassword then
      let u1 := { user with password := hashPassword newPassword }
      let u2 := u1.clearRefreshTokens
      (updateUser db u2, .ok "Password changed successfully")
    else
      (db, .error (.authentication "Current password is incorrect"))

/-- The whitelist of `AuthService.updateProfile`. -/
def allowedUpdates : List String := ["firstName", "lastName", "bio", "avatar"]

end AuthService

/-- Assignment of one string-valued field by `findByIdAndUpdate`; keys
outside the modelled schema are ignored by the store. -/
def User.setField (u : User) (kv : String × String) : User :=
  match kv.1 with
  | "firstName" => { u with firstName := kv.2 }
  | "lastName" => { u with lastName := kv.2 }
  | "bio" => { u with bio := kv.2 }
  | "avatar" => { u with avatar := kv.2 }
  | "role" => { u with role := kv.2 }
  | "email" => { u with email := kv.2 }
  | "username" => { u with username := kv.2 }
  | "password" => { u with password := kv.2 }
  | _ => u

/-- `AuthService.updateProfile(userId, updateData)`: keep only the
whitelisted keys of `updateData`, then `findByIdAndUpdate` with the
filtered assignments. -/
def AuthService.updateProfile (db : List User) (userId : Nat)
    (updateData : List (String × String)) : List User × Except AppError User :=
  let updates := updateData.filter (fun kv => AuthService.allowedUpdates.contains kv.1)
  match findById db userId with
  | none => (db, .error (.notFound "User not found"))
  | some user =>
    let u' := updates.foldl User.setField user
    (updateUser db u', .ok u')

/-- Sample configuration used by the concrete witnesses. -/
def cfg0 : Config :=
  { jwtSecret := "acc-secret", jwtRefreshSecret := "ref-secret",
    jwtExpire := 604800, jwtRefreshExpire := 2592000 }

/-- Sample access-token payload used by the concrete witnesses. -/
def payload0 : Payload :=
  { userId := 1, username := some "alice", email := some "alice@x.com",
    role := some "user" }

/-- A sample refresh token registered to the sample user. -/
def tok0 : Token :=
  generateRefreshToken cfg0 10 { userId := 1 }

/-- Sample active user holding `tok0`. -/
def user0 : User :=
  { id := 1, username := "alice", email := "alice@x.com",
    password := hashPassword "Abc123!@#",
    firstName := "Alice", lastName := "Smith", role := "user",
    isActive := true, avatar := "", bio := "", emailVerified := false,
    lastLogin := none, refreshTokens := [{ token := tok0 }] }

/-- Sample single-user store. -/
def db0 : List User := [user0]

/-- A refresh token naming the inactive sample user. -/
def tokInact : Token :=
  generateRefreshToken cfg0 10 { userId := 2 }

/-- A deactivated user still holding a cryptographically valid
refresh token. -/
def userInactive : User :=
  { id := 2, username := "dora", email := "dora@x.com",
    password := hashPassword "pw-dora",
    firstName := "Dora", lastName := "Gray", role := "user",
    isActive := false, avatar := "", bio := "", emailVerified := false,
    lastLogin := none, refreshTokens := [{ token := tokInact }] }

/-- Store holding only the inactive user. -/
def dbInact : List User := [userInactive]

/-- The sample user with an empty refresh-token set. -/
def userNoTok : User := { user0 with refreshTokens := [] }

/-- Store holding the sample user without registered tokens. -/
def dbNoTok : List User := [userNoTok]

/-- A second sample user whose username collides with the
registration request `reqBoth` below. -/
def userBob : User :=
  { id := 3, username := "bob", email := "bob@x.com",
    password := hashPassword "pw-bob",
    firstName := "Bob", lastName := "Jones", role := "user",
    isActive := true, avatar := "", bio := "", emailVerified := false,
    lastLogin := none, refreshTokens := [] }

/-- A third sample user whose email collides with `reqBoth`. -/
def userCarol : User :=
  { id := 4, username := "carol", email := "new@x.com",
    password := hashPassword "pw-carol",
    firstName := "Carol", lastName := "Lee", role := "user",
    isActive := true, avatar := "", bio := "", emailVerified := false,
    lastLogin := none, refreshTokens := [] }

/-- Store holding `userBob` before `userCarol`. -/
def dbPair : List User := [userBob, userCarol]

/-- Registration request colliding on username with `userBob` and on
email with `userCarol`. -/
def reqBoth : RegisterData :=
  { username := "bob", email := "new@x.com", password := "Zz1!zzzz",
    firstName := "New", lastName := "Person", role := none }

/-- The user found by `findById` satisfies the id predicate. -/
theorem findById_id {db : List User} {i : Nat} {u : User}
    (h : findById db i = some u) : u.id = i := by
  have := List.find?_some h
  simpa using this

/-- The user found by `findById` belongs to the store. -/
theorem findById_mem {db : List User} {i : Nat} {u : User}
    (h : findById db i = some u) : u ∈ db :=
  List.mem_of_find?_eq_some h

/-- Replacing a user document that is not in the store changes
nothing. -/
theorem updateUser_not_mem {db : List User} {u : User}
    (h : ∀ v ∈ db, v.id ≠ u.id) : updateUser db u = db := by
  induction db with
  | nil => rfl
  | cons v tl ih =>
    have hv : v.id ≠ u.id := h v (List.mem_cons_self v tl)
    have htl : updateUser tl u = tl :=
      ih (fun w hw => h w (List.mem_cons_of_mem v hw))
    unfold updateUser at htl ⊢
    simp only [List.map_cons, if_neg hv, htl]

/-- In a store with pairwise distinct ids, writing back an unmodified
document is the identity. -/
theorem updateUser_self {db : List User} {u : User}
    (hnd : (db.map User.id).Nodup) (hmem : u ∈ db) : updateUser db u = db := by
  induction db with
  | nil => simp at hmem
  | cons v tl ih =>
    simp only [List.map_cons, List.nodup_cons] at hnd
    rcases List.mem_cons.mp hmem with rfl | htl
    · have htail : updateUser tl u = tl := by
        refine updateUser_not_mem (fun w hw he => ?_)
        exact hnd.1 (he ▸ List.mem_map_of_mem User.id hw)
      unfold updateUser at htail ⊢
      simp [htail]
    · have hrec := ih hnd.2 htl
      have hv : v.id ≠ u.id := by
        intro he
        exact hnd.1 (he ▸ List.mem_map_of_mem User.id htl)
      unfold updateUser at hrec ⊢
      simp only [List.map_cons, if_neg hv, hrec]

/-- After writing back a document with the looked-up id, `findById`
returns the new document. -/
theorem findById_updateUser {db : List User} {i : Nat} {u w : User}
    (h : findById db i = some u) (hid : w.id = u.id) :
    findById (updateUser db w) i = some w := by
  have hui : u.id = i := findById_id h
  induction db with
  | nil => simp [findById] at h
  | cons v tl ih =>
    by_cases hv : v.id = i
    · have hvu : v = u := by
        unfold findById at h
        rw [List.find?_cons_of_pos _ (by simp [hv])] at h
        exact Option.some_inj.mp h
      have hcond : v.id = w.id := by rw [hid, ← hvu]
      unfold findById updateUser
      simp only [List.map_cons, if_pos hcond]
      exact List.find?_cons_of_pos _ (by simp [hid, hui])
    · unfold findById at h
      rw [List.find?_cons_of_neg _ (by simp [hv])] at h
      have htl := ih h
      unfold findById updateUser at htl ⊢
      simp only [List.map_cons, if_neg (show ¬ v.id = w.id by rw [hid, hui]; exact hv)]
      rw [List.find?_cons_of_neg _ (by simp [hv])]
      exact htl

/-- C7: `generateAccessToken` followed by `verifyAccessToken` within
the expiry window returns exactly the signed claims; the registered
claims (`iat`, `exp`, `iss`, `aud`) live outside the payload in this
model, so equality is literal equality of the custom claims. -/
theorem verify_generate_access_roundtrip (cfg : Config) (now later : Nat)
    (payload : Payload) (hfresh : later < now + cfg.jwtExpire) :
    verifyAccessToken cfg later (generateAccessToken cfg now payload) = .ok payload := by
  simp [verifyAccessToken, generateAccessToken, jwtVerify, jwtSign,
    Nat.not_le.mpr hfresh]

/-- Witness for the access-token round trip at a concrete
configuration, payload and clock. -/
theorem verify_generate_access_roundtrip_witness :
    verifyAccessToken cfg0 25 (generateAccessToken cfg0 10 payload0) = .ok payload0 :=
  verify_generate_access_roundtrip cfg0 10 25 payload0 (by decide)

/-- C6: with distinct secrets configured, an access token presented to
`verifyRefreshToken` and a refresh token presented to
`verifyAccessToken` are both rejected with the `Invalid` (signature)
error, never the `Expired` one, at every clock time. -/
theorem cross_verification_rejects (cfg : Config) (now later : Nat)
    (payload : Payload) (hsecrets : cfg.jwtSecret ≠ cfg.jwtRefreshSecret) :
    verifyRefreshToken cfg later (generateAccessToken cfg now payload) =
      .error (.authentication "Invalid refresh token") ∧
    verifyAccessToken cfg later (generateRefreshToken cfg now payload) =
      .error (.authentication "Invalid access token") := by
  constructor
  · simp [verifyRefreshToken, generateAccessToken, jwtVerify, jwtSign, hsecrets]
  · simp [verifyAccessToken, generateRefreshToken, jwtVerify, jwtSign,
      Ne.symm hsecrets]

/-- Witness for cross-verification rejection at a concrete
configuration with distinct secrets. -/
theorem cross_verification_rejects_witness :
    verifyRefreshToken cfg0 25 (generateAccessToken cfg0 10 payload0) =
      .error (.authentication "Invalid refresh token") ∧
    verifyAccessToken cfg0 25 (generateRefreshToken cfg0 10 payload0) =
      .error (.authentication "Invalid access token") :=
  cross_verification_rejects cfg0 10 25 payload0 (by decide)

/-- C4: every failing `login` — unknown email, inactive user, or
failed password comparison — returns the one identical error
`AuthenticationError("Invalid email or password")`, so two failing
runs are indistinguishable by their returned error. -/
theorem login_failure_indistinguishable (cfg : Config) (db : List User)
    (now : Nat) (email pw : String) :
    (∀ e, (AuthService.login cfg db now email pw).2 = .error e →
      e = .authentication "Invalid email or password") ∧
    (db.find? (fun u => u.email == email) = none →
      (AuthService.login cfg db now email pw).2 =
        .error (.authentication "Invalid email or password")) ∧
    (∀ u, db.find? (fun u => u.email == email) = some u → u.isActive = false →
      (AuthService.login cfg db now email pw).2 =
        .error (.authentication "Invalid email or password")) ∧
    (∀ u, db.find? (fun u => u.email == email) = some u → u.isActive = true →
      u.comparePassword pw = false →
      (AuthService.login cfg db now email pw).2 =
        .error (.authentication "Invalid email or password")) := by
  refine ⟨?_, ?_, ?_, ?_⟩
  · intro e he
    unfold AuthService.login at he
    cases hf : db.find? (fun u => u.email == email) with
    | none =>
      simp only [hf] at he
      simp at he
      exact he.symm
    | some user =>
      simp only [hf] at he
      by_cases ha : user.isActive = false
      · rw [if_pos ha] at he
        simp at he
        exact he.symm
      · rw [if_neg ha] at he
        by_cases hp : user.comparePassword pw = true
        · rw [if_pos hp] at he
          simp [AuthService.generateTokens] at he
        · rw [if_neg hp] at he
          simp at he
          exact he.symm
  · intro hf
    unfold AuthService.login
    simp only [hf]
  · intro u hf ha
    unfold AuthService.login
    simp only [hf]
    rw [if_pos ha]
  · intro u hf ha hp
    unfold AuthService.login
    simp only [hf]
    rw [if_neg (by simp [ha]), if_neg (by simp [hp])]

/-- Witness for login-failure indistinguishability: three concrete
failing runs — unknown email, inactive user, wrong password — all
return the identical error. -/
theorem login_failure_indistinguishable_witness :
    (AuthService.login cfg0 db0 0 "nobody@x.com" "pw").2 =
      .error (.authentication "Invalid email or password") ∧
    (AuthService.login cfg0 [{ user0 with isActive := false }] 0 "alice@x.com" "Abc123!@#").2 =
      .error (.authentication "Invalid email or password") ∧
    (AuthService.login cfg0 db0 0 "alice@x.com" "wrong-pw").2 =
      .error (.authentication "Invalid email or password") :=
  ⟨(login_failure_indistinguishable cfg0 db0 0 "nobody@x.com" "pw").2.1 (by decide),
   (login_failure_indistinguishable cfg0 [{ user0 with isActive := false }] 0
      "alice@x.com" "Abc123!@#").2.2.1 { user0 with isActive := false }
      (by decide) (by decide),
   (login_failure_indistinguishable cfg0 db0 0 "alice@x.com" "wrong-pw").2.2.2 user0
      (by decide) (by decide) (by decide)⟩

/-- Counterexample to C3 as stated: the requested email collides with
`userCarol` yet — because `userBob`, who collides only on username,
is found first by the single `$or` lookup — `register` reports
`Conflict("Username already taken")`, not the email conflict. -/
theorem register_both_collide_counterexample :
    userCarol ∈ dbPair ∧ userCarol.email = reqBoth.email ∧
    (AuthService.register cfg0 dbPair 0 99 reqBoth).2 =
      .error (.conflict "Username already taken") := by
  refine ⟨by decide, by decide, ?_⟩
  decide

/-- C3 (amended): the conflict reported by `register` is decided by
the first store document matching either field — email conflict
exactly when that first match has the requested email.  When only the
email (resp. only the username) collides anywhere in the store, the
email (resp. username) conflict is reported; when both collide the
outcome follows the first match, not an unconditional email
priority. -/
theorem register_conflict_first_match (cfg : Config) (db : List User)
    (now newId : Nat) (d : RegisterData) :
    (∀ ex, db.find? (fun u => u.email == d.email || u.username == d.username) = some ex →
      ex.email = d.email →
      AuthService.register cfg db now newId d =
        (db, .error (.conflict "Email already registered"))) ∧
    (∀ ex, db.find? (fun u => u.email == d.email || u.username == d.username) = some ex →
      ex.email ≠ d.email →
      AuthService.register cfg db now newId d =
        (db, .error (.conflict "Username already taken"))) ∧
    ((∀ u ∈ db, u.username ≠ d.username) → (∃ u ∈ db, u.email = d.email) →
      AuthService.register cfg db now newId d =
        (db, .error (.conflict "Email already registered"))) ∧
    ((∀ u ∈ db, u.email ≠ d.email) → (∃ u ∈ db, u.username = d.username) →
      AuthService.register cfg db now newId d =
        (db, .error (.conflict "Username already taken"))) := by
  refine ⟨?_, ?_, ?_, ?_⟩
  · intro ex hf he
    unfold AuthService.register
    simp only [hf]
    rw [if_pos (by simp [he])]
  · intro ex hf he
    unfold AuthService.register
    simp only [hf]
    rw [if_neg (by simp [he])]
  · intro hnu hex
    obtain ⟨w, hw, hwe⟩ := hex
    cases hf : db.find? (fun u => u.email == d.email || u.username == d.username) with
    | none =>
      exact absurd (List.find?_eq_none.mp hf w hw) (by simp [hwe])
    | some ex =>
      have hpex := List.find?_some hf
      have hmem := List.mem_of_find?_eq_some hf
      have hee : ex.email = d.email := by
        rcases (by simpa using hpex : ex.email = d.email ∨ ex.username = d.username) with h | h
        · exact h
        · exact absurd h (hnu ex hmem)
      unfold AuthService.register
      simp only [hf]
      rw [if_pos (by simp [hee])]
  · intro hne hun
    obtain ⟨w, hw, hwu⟩ := hun
    cases hf : db.find? (fun u => u.email == d.email || u.username == d.username) with
    | none =>
      exact absurd (List.find?_eq_none.mp hf w hw) (by simp [hwu])
    | some ex =>
      have hmem := List.mem_of_find?_eq_some hf
      unfold AuthService.register
      simp only [hf]
      rw [if_neg (by simp [hne ex hmem])]

/-- Witness for the amended registration-conflict theorem: a request
colliding only on email is rejected with the email conflict, one
colliding only on username with the username conflict. -/
theorem register_conflict_first_match_witness :
    AuthService.register cfg0 dbPair 0 99
        { reqBoth with username := "freshname" } =
      (dbPair, .error (.conflict "Email already registered")) ∧
    AuthService.register cfg0 dbPair 0 99
        { reqBoth with email := "fresh@x.com" } =
      (dbPair, .error (.conflict "Username already taken")) :=
  ⟨(register_conflict_first_match cfg0 dbPair 0 99
      { reqBoth with username := "freshname" }).2.2.1
      (by decide) ⟨userCarol, by decide, by decide⟩,
   (register_conflict_first_match cfg0 dbPair 0 99
      { reqBoth with email := "fresh@x.com" }).2.2.2
      (by decide) ⟨userBob, by decide, by decide⟩⟩

/-- C9: whenever `changePassword` fails — user missing or current
password wrong — the store is unchanged: the password hash and the
refresh-token collection keep their prior values. -/
theorem changePassword_error_atomic (db : List User) (uid : Nat)
    (cur new : String) (e : AppError)
    (he : (AuthService.changePassword db uid cur new).2 = .error e) :
    (AuthService.changePassword db uid cur new).1 = db := by
  unfold AuthService.changePassword at he ⊢
  cases hf : findById db uid with
  | none => simp only [hf]
  | some user =>
    simp only [hf] at he ⊢
    by_cases hp : user.comparePassword cur = true
    · rw [if_pos hp] at he
      simp at he
    · rw [if_neg hp]

/-- Witness for changePassword error atomicity: both the missing-user
and the wrong-current-password failures leave the concrete store
untouched. -/
theorem changePassword_error_atomic_witness :
    (AuthService.changePassword db0 999 "x" "y").1 = db0 ∧
    (AuthService.changePassword db0 1 "wrong" "y").1 = db0 :=
  ⟨changePassword_error_atomic db0 999 "x" "y" (.notFound "User not found") (by decide),
   changePassword_error_atomic db0 1 "wrong" "y"
     (.authentication "Current password is incorrect") (by decide)⟩

/-- Every field outside the `updateProfile` whitelist survives the
filtered fold of `User.setField`. -/
theorem foldl_setField_preserves (kvs : List (String × String)) (u : User) :
    ((kvs.filter (fun kv => AuthService.allowedUpdates.contains kv.1)).foldl
        User.setField u).role = u.role ∧
    ((kvs.filter (fun kv => AuthService.allowedUpdates.contains kv.1)).foldl
        User.setField u).email = u.email ∧
    ((kvs.filter (fun kv => AuthService.allowedUpdates.contains kv.1)).foldl
        User.setField u).username = u.username ∧
    ((kvs.filter (fun kv => AuthService.allowedUpdates.contains kv.1)).foldl
        User.setField u).password = u.password ∧
    ((kvs.filter (fun kv => AuthService.allowedUpdates.contains kv.1)).foldl
        User.setField u).isActive = u.isActive ∧
    ((kvs.filter (fun kv => AuthService.allowedUpdates.contains kv.1)).foldl
        User.setField u).refreshTokens = u.refreshTokens ∧
    ((kvs.filter (fun kv => AuthService.allowedUpdates.contains kv.1)).foldl
        User.setField u).id = u.id := by
  induction kvs generalizing u with
  | nil => exact ⟨rfl, rfl, rfl, rfl, rfl, rfl, rfl⟩
  | cons kv tl ih =>
    by_cases hk : AuthService.allowedUpdates.contains kv.1
    · have hks : kv.1 = "firstName" ∨ kv.1 = "lastName" ∨ kv.1 = "bio" ∨
          kv.1 = "avatar" := by
        simpa [AuthService.allowedUpdates] using hk
      have hpres : (User.setField u kv).role = u.role ∧
          (User.setField u kv).email = u.email ∧
          (User.setField u kv).username = u.username ∧
          (User.setField u kv).password = u.password ∧
          (User.setField u kv).isActive = u.isActive ∧
          (User.setField u kv).refreshTokens = u.refreshTokens ∧
          (User.setField u kv).id = u.id := by
        obtain ⟨k, v⟩ := kv
        rcases hks with h | h | h | h <;> (simp only at h; subst h; simp [User.setField])
      have hflt : List.filter (fun kv => AuthService.allowedUpdates.contains kv.1) (kv :: tl) =
          kv :: List.filter (fun kv => AuthService.allowedUpdates.contains kv.1) tl := by
        simp [List.filter_cons]
        simpa using hk
      rw [hflt, List.foldl_cons]
      have hrec := ih (User.setField u kv)
      exact ⟨hrec.1.trans hpres.1, hrec.2.1.trans hpres.2.1,
        hrec.2.2.1.trans hpres.2.2.1, hrec.2.2.2.1.trans hpres.2.2.2.1,
        hrec.2.2.2.2.1.trans hpres.2.2.2.2.1,
        hrec.2.2.2.2.2.1.trans hpres.2.2.2.2.2.1,
        hrec.2.2.2.2.2.2.trans hpres.2.2.2.2.2.2⟩
    · have hflt : List.filter (fun kv => AuthService.allowedUpdates.contains kv.1) (kv :: tl) =
          List.filter (fun kv => AuthService.allowedUpdates.contains kv.1) tl := by
        simp [List.filter_cons]
        simpa using hk
      rw [hflt]
      exact ih u

/-- C10: `updateProfile` touches at most the whitelisted profile
fields — the returned (and stored) user keeps the prior `role`,
`email`, `username`, password hash, `isActive` flag and refresh-token
collection for every `updateData`, and every other user document is
untouched. -/
theorem updateProfile_frame (db : List User) (uid : Nat)
    (updateData : List (String × String)) (u u' : User)
    (hfind : findById db uid = some u)
    (hok : (AuthService.updateProfile db uid updateData).2 = .ok u') :
    u'.role = u.role ∧ u'.email = u.email ∧ u'.username = u.username ∧
    u'.password = u.password ∧ u'.isActive = u.isActive ∧
    u'.refreshTokens = u.refreshTokens ∧ u'.id = u.id ∧
    (AuthService.updateProfile db uid updateData).1 = updateUser db u' ∧
    (∀ v ∈ db, v.id ≠ uid → v ∈ (AuthService.updateProfile db uid updateData).1) := by
  have hcomp := foldl_setField_preserves updateData u
  unfold AuthService.updateProfile at hok ⊢
  simp only [hfind] at hok ⊢
  have hu' : (updateData.filter
      (fun kv => AuthService.allowedUpdates.contains kv.1)).foldl User.setField u = u' := by
    simpa using hok
  rw [hu'] at hcomp
  have hid : u'.id = uid := hcomp.2.2.2.2.2.2.trans (findById_id hfind)
  refine ⟨hcomp.1, hcomp.2.1, hcomp.2.2.1, hcomp.2.2.2.1, hcomp.2.2.2.2.1,
    hcomp.2.2.2.2.2.1, hcomp.2.2.2.2.2.2, by rw [hu'], ?_⟩
  intro v hv hne
  rw [hu']
  have hstay : (if v.id = u'.id then u' else v) = v :=
    if_neg (by rw [hid]; exact hne)
  exact hstay ▸ List.mem_map_of_mem _ hv

/-- Witness for the updateProfile frame property: an update carrying a
`role` key changes the first name but leaves role, credentials and
tokens as they were. -/
theorem updateProfile_frame_witness :
    ({ user0 with firstName := "Mallory" } : User).role = user0.role ∧
    ({ user0 with firstName := "Mallory" } : User).email = user0.email ∧
    ({ user0 with firstName := "Mallory" } : User).username = user0.username ∧
    ({ user0 with firstName := "Mallory" } : User).password = user0.password ∧
    ({ user0 with firstName := "Mallory" } : User).isActive = user0.isActive ∧
    ({ user0 with firstName := "Mallory" } : User).refreshTokens = user0.refreshTokens ∧
    ({ user0 with firstName := "Mallory" } : User).id = user0.id ∧
    (AuthService.updateProfile db0 1
        [("role", "admin"), ("firstName", "Mallory"), ("password", "x")]).1 =
      updateUser db0 { user0 with firstName := "Mallory" } ∧
    (∀ v ∈ db0, v.id ≠ 1 → v ∈ (AuthService.updateProfile db0 1
        [("role", "admin"), ("firstName", "Mallory"), ("password", "x")]).1) :=
  updateProfile_frame db0 1 [("role", "admin"), ("firstName", "Mallory"), ("password", "x")]
    user0 { user0 with firstName := "Mallory" } (by decide) (by decide)

/-- C8: `logout` never fails.  With a found user and a presented
token it stores the user's token list with every entry carrying that
token removed and every other entry kept (in order, a sublist); with
a missing user, an omitted token, or a token not in the set, the
store is unchanged. -/
theorem logout_spec (db : List User) (userId : Nat) (rt : Option Token)
    (hnd : (db.map User.id).Nodup) :
    ((AuthService.logout db userId rt).2 = .ok ()) ∧
    (findById db userId = none → (AuthService.logout db userId rt).1 = db) ∧
    (rt = none → (AuthService.logout db userId rt).1 = db) ∧
    (∀ u t, findById db userId = some u → rt = some t →
      (AuthService.logout db userId rt).1 = updateUser db (u.removeRefreshToken t) ∧
      (∀ e ∈ (u.removeRefreshToken t).refreshTokens, e.token ≠ t) ∧
      (∀ e ∈ u.refreshTokens, e.token ≠ t → e ∈ (u.removeRefreshToken t).refreshTokens) ∧
      List.Sublist (u.removeRefreshToken t).refreshTokens u.refreshTokens ∧
      ((∀ e ∈ u.refreshTokens, e.token ≠ t) → (AuthService.logout db userId rt).1 = db)) := by
  refine ⟨?_, ?_, ?_, ?_⟩
  · unfold AuthService.logout
    cases hf : findById db userId with
    | none => rfl
    | some user =>
      cases rt with
      | none => rfl
      | some t => rfl
  · intro hf
    unfold AuthService.logout
    simp only [hf]
  · intro hr
    subst hr
    unfold AuthService.logout
    cases hf : findById db userId with
    | none => rfl
    | some user => rfl
  · intro u t hf hr
    subst hr
    refine ⟨by unfold AuthService.logout; simp only [hf], ?_, ?_, ?_, ?_⟩
    · intro e he
      have := (List.mem_filter.mp he).2
      simpa using this
    · intro e he hne
      exact List.mem_filter.mpr ⟨he, by simpa using hne⟩
    · exact List.filter_sublist _
    · intro habs
      have hrem : u.removeRefreshToken t = u := by
        unfold User.removeRefreshToken
        rw [List.filter_eq_self.mpr (fun e he => by simpa using habs e he)]
      unfold AuthService.logout
      simp only [hf, hrem]
      exact updateUser_self hnd (findById_mem hf)

/-- Witness for the logout specification: removing the registered
token, a missing user, and an omitted token, on the concrete store. -/
theorem logout_spec_witness :
    (AuthService.logout db0 1 (some tok0)).2 = .ok () ∧
    (AuthService.logout db0 1 (some tok0)).1 =
      updateUser db0 (user0.removeRefreshToken tok0) ∧
    (AuthService.logout db0 999 (some tok0)).1 = db0 ∧
    (AuthService.logout db0 1 none).1 = db0 :=
  ⟨(logout_spec db0 1 (some tok0) (by decide)).1,
   ((logout_spec db0 1 (some tok0) (by decide)).2.2.2 user0 tok0 (by decide) rfl).1,
   (logout_spec db0 999 (some tok0) (by decide)).2.1 (by decide),
   (logout_spec db0 1 none (by decide)).2.2.1 rfl⟩

/-- Counterexample to C5 as stated: for the inactive user,
`changePassword` with the correct current password still succeeds
(the code never checks `isActive`) and clears the token set, yet
presenting the previously issued, still-verifying refresh token to
`refresh` fails with the distinct `"User not found or inactive"`
error — not `InvalidRefreshToken` as the claim demands for every
user. -/
theorem changePassword_inactive_counterexample :
    userInactive.isActive = false ∧
    (AuthService.changePassword dbInact 2 "pw-dora" "NewPw!123").2 =
      .ok "Password changed successfully" ∧
    verifyRefreshToken cfg0 20 tokInact = .ok { userId := 2 } ∧
    (AuthService.refreshToken cfg0
        (AuthService.changePassword dbInact 2 "pw-dora" "NewPw!123").1 20 tokInact).2 =
      .error (.authentication "User not found or inactive") := by
  exact ⟨by decide, by decide, by decide, by decide⟩

/-- C5 (amended): `changePassword` fails `NotFound` for a missing
user and `Authentication` for a wrong current password; with the
correct one it succeeds (whether or not the user is active), stores
the new hash and clears the entire refresh-token set, after which
every still-verifying refresh token naming the user fails `refresh` —
with `InvalidRefreshToken` when the user is active, and with the
`"User not found or inactive"` error when the user is inactive.  The
same dichotomy holds for tokens presented after `logoutAll`. -/
theorem changePassword_invalidates_sessions (cfg : Config) (db : List User)
    (uid : Nat) (cur new : String) :
    (findById db uid = none →
      AuthService.changePassword db uid cur new =
        (db, .error (.notFound "User not found"))) ∧
    (∀ u, findById db uid = some u → u.comparePassword cur = false →
      AuthService.changePassword db uid cur new =
        (db, .error (.authentication "Current password is incorrect"))) ∧
    (∀ u, findById db uid = some u → u.comparePassword cur = true →
      (AuthService.changePassword db uid cur new).2 = .ok "Password changed successfully" ∧
      findById (AuthService.changePassword db uid cur new).1 uid =
        some { u with password := hashPassword new, refreshTokens := [] } ∧
      (∀ t nowR p, verifyRefreshToken cfg nowR t = .ok p → p.userId = uid →
        u.isActive = true →
        (AuthService.refreshToken cfg (AuthService.changePassword db uid cur new).1 nowR t).2 =
          .error (.authentication "Invalid refresh token")) ∧
      (∀ t nowR p, verifyRefreshToken cfg nowR t = .ok p → p.userId = uid →
        u.isActive = false →
        (AuthService.refreshToken cfg (AuthService.changePassword db uid cur new).1 nowR t).2 =
          .error (.authentication "User not found or inactive"))) ∧
    (∀ u, findById db uid = some u →
      ∀ t nowR p, verifyRefreshToken cfg nowR t = .ok p → p.userId = uid →
        (u.isActive = true →
          (AuthService.refreshToken cfg (AuthService.logoutAll db uid).1 nowR t).2 =
            .error (.authentication "Invalid refresh token")) ∧
        (u.isActive = false →
          (AuthService.refreshToken cfg (AuthService.logoutAll db uid).1 nowR t).2 =
            .error (.authentication "User not found or inactive"))) := by
  refine ⟨?_, ?_, ?_, ?_⟩
  · intro hf
    unfold AuthService.changePassword
    simp only [hf]
  · intro u hf hp
    unfold AuthService.changePassword
    simp only [hf]
    rw [if_neg (by simp [hp])]
  · intro u hf hp
    have hcp : AuthService.changePassword db uid cur new =
        (updateUser db { u with password := hashPassword new, refreshTokens := [] },
         .ok "Password changed successfully") := by
      unfold AuthService.changePassword
      simp only [hf]
      rw [if_pos hp]
      rfl
    have hfu :
        findById (updateUser db { u with password := hashPassword new, refreshTokens := [] }) uid
          = some { u with password := hashPassword new, refreshTokens := [] } :=
      findById_updateUser hf rfl
    refine ⟨by rw [hcp], ?_, ?_, ?_⟩
    · rw [hcp]
      exact findById_updateUser hf rfl
    · intro t nowR p hv hpu hact
      rw [hcp]
      unfold AuthService.refreshToken
      simp only [hv, hpu, hfu]
      rw [if_neg (show ¬ ({ u with password := hashPassword new, refreshTokens := [] } : User).isActive = false by simp [hact])]
      simp
    · intro t nowR p hv hpu hia
      rw [hcp]
      unfold AuthService.refreshToken
      simp only [hv, hpu, hfu]
      rw [if_pos (show ({ u with password := hashPassword new, refreshTokens := [] } : User).isActive = false from hia)]
  · intro u hf t nowR p hv hpu
    have hla : (AuthService.logoutAll db uid).1 = updateUser db u.clearRefreshTokens := by
      unfold AuthService.logoutAll
      simp only [hf]
    have hfu : findById (updateUser db u.clearRefreshTokens) uid =
        some u.clearRefreshTokens :=
      findById_updateUser hf rfl
    constructor
    · intro hact
      rw [hla]
      unfold AuthService.refreshToken
      simp only [hv, hpu, hfu]
      rw [if_neg (show ¬ u.clearRefreshTokens.isActive = false by
        simp [User.clearRefreshTokens, hact])]
      simp [User.clearRefreshTokens]
    · intro hia
      rw [hla]
      unfold AuthService.refreshToken
      simp only [hv, hpu, hfu]
      rw [if_pos (show u.clearRefreshTokens.isActive = false from hia)]

/-- Witness for the amended changePassword/session-invalidation
theorem: the active concrete user changes their password and the
prior refresh token then fails refresh with `InvalidRefreshToken`
(likewise after `logoutAll`); the inactive user's prior token fails
with the `"User not found or inactive"` error instead; the two
failure modes are exercised on missing user and wrong password. -/
theorem changePassword_invalidates_sessions_witness :
    AuthService.changePassword db0 999 "Abc123!@#" "Xyz!4567" =
      (db0, .error (.notFound "User not found")) ∧
    AuthService.changePassword db0 1 "wrong" "Xyz!4567" =
      (db0, .error (.authentication "Current password is incorrect")) ∧
    (AuthService.changePassword db0 1 "Abc123!@#" "Xyz!4567").2 =
      .ok "Password changed successfully" ∧
    (AuthService.refreshToken cfg0
        (AuthService.changePassword db0 1 "Abc123!@#" "Xyz!4567").1 20 tok0).2 =
      .error (.authentication "Invalid refresh token") ∧
    (AuthService.refreshToken cfg0 (AuthService.logoutAll db0 1).1 20 tok0).2 =
      .error (.authentication "Invalid refresh token") ∧
    (AuthService.refreshToken cfg0
        (AuthService.changePassword dbInact 2 "pw-dora" "NewPw!123").1 20 tokInact).2 =
      .error (.authentication "User not found or inactive") ∧
    (AuthService.refreshToken cfg0 (AuthService.logoutAll dbInact 2).1 20 tokInact).2 =
      .error (.authentication "User not found or inactive") :=
  ⟨(changePassword_invalidates_sessions cfg0 db0 999 "Abc123!@#" "Xyz!4567").1 (by decide),
   (changePassword_invalidates_sessions cfg0 db0 1 "wrong" "Xyz!4567").2.1 user0
     (by decide) (by decide),
   ((changePassword_invalidates_sessions cfg0 db0 1 "Abc123!@#" "Xyz!4567").2.2.1 user0
     (by decide) (by decide)).1,
   ((changePassword_invalidates_sessions cfg0 db0 1 "Abc123!@#" "Xyz!4567").2.2.1 user0
     (by decide) (by decide)).2.2.1 tok0 20 { userId := 1 } (by decide) rfl (by decide),
   ((changePassword_invalidates_sessions cfg0 db0 1 "Abc123!@#" "Xyz!4567").2.2.2 user0
     (by decide) tok0 20 { userId := 1 } (by decide) rfl).1 (by decide),
   ((changePassword_invalidates_sessions cfg0 dbInact 2 "pw-dora" "NewPw!123").2.2.1 userInactive
     (by decide) (by decide)).2.2.2 tokInact 20 { userId := 2 } (by decide) rfl (by decide),
   ((changePassword_invalidates_sessions cfg0 dbInact 2 "pw-dora" "NewPw!123").2.2.2 userInactive
     (by decide) tokInact 20 { userId := 2 } (by decide) rfl).2 (by decide)⟩

/-- Counterexample to C1 as stated: for the inactive user the token
verifies (a), is unexpired (b) and condition (c) fails — the user is
not active — yet `refreshToken` neither clears that user's tokens nor
fails with `InvalidRefreshToken`; it fails with the distinct
`"User not found or inactive"` error and leaves the store unchanged. -/
theorem refresh_inactive_user_counterexample :
    verifyRefreshToken cfg0 20 tokInact = .ok { userId := 2 } ∧
    findById dbInact 2 = some userInactive ∧
    userInactive.isActive = false ∧
    userInactive.refreshTokens ≠ [] ∧
    AuthService.refreshToken cfg0 dbInact 20 tokInact =
      (dbInact, .error (.authentication "User not found or inactive")) := by
  exact ⟨by decide, by decide, by decide, by decide, by decide⟩

/-- C1 (amended): `refreshToken` mints a new pair iff the token
verifies under the refresh secret (unexpired, right issuer/audience)
and the named user exists, is active and has the token registered.
When the token verifies but the existing *active* user does not hold
it, refresh clears all of that user's tokens and fails with
`InvalidRefreshToken`; when the named user is missing or inactive it
fails with the `"User not found or inactive"` error without touching
the store; a cryptographic failure propagates the codec error. -/
theorem refresh_mints_iff (cfg : Config) (db : List User) (now : Nat) (rt : Token) :
    ((∃ res, (AuthService.refreshToken cfg db now rt).2 = .ok res) ↔
      (∃ p u, verifyRefreshToken cfg now rt = .ok p ∧ findById db p.userId = some u ∧
        u.isActive = true ∧ u.refreshTokens.any (fun e => e.token == rt) = true)) ∧
    (∀ p u, verifyRefreshToken cfg now rt = .ok p → findById db p.userId = some u →
      u.isActive = true → u.refreshTokens.any (fun e => e.token == rt) = false →
      AuthService.refreshToken cfg db now rt =
        (updateUser db u.clearRefreshTokens,
         .error (.authentication "Invalid refresh token"))) ∧
    (∀ p, verifyRefreshToken cfg now rt = .ok p → findById db p.userId = none →
      AuthService.refreshToken cfg db now rt =
        (db, .error (.authentication "User not found or inactive"))) ∧
    (∀ p u, verifyRefreshToken cfg now rt = .ok p → findById db p.userId = some u →
      u.isActive = false →
      AuthService.refreshToken cfg db now rt =
        (db, .error (.authentication "User not found or inactive"))) ∧
    (∀ e, verifyRefreshToken cfg now rt = .error e →
      AuthService.refreshToken cfg db now rt = (db, .error e)) := by
  refine ⟨⟨?_, ?_⟩, ?_, ?_, ?_, ?_⟩
  · rintro ⟨res, heq⟩
    unfold AuthService.refreshToken at heq
    cases hv : verifyRefreshToken cfg now rt with
    | error e => simp only [hv] at heq; simp at heq
    | ok p =>
      simp only [hv] at heq
      cases hf : findById db p.userId with
      | none => simp only [hf] at heq; simp at heq
      | some u =>
        simp only [hf] at heq
        by_cases ha : u.isActive = false
        · rw [if_pos ha] at heq; simp at heq
        · rw [if_neg ha] at heq
          by_cases hm : u.refreshTokens.any (fun e => e.token == rt) = true
          · exact ⟨p, u, rfl, hf, by simpa using ha, hm⟩
          · rw [if_neg hm] at heq; simp at heq
  · rintro ⟨p, u, hv, hf, ha, hm⟩
    refine ⟨(AuthService.generateTokens cfg now (u.removeRefreshToken rt)).2, ?_⟩
    unfold AuthService.refreshToken
    simp only [hv, hf]
    rw [if_neg (by simp [ha]), if_pos hm]
  · intro p u hv hf ha hm
    unfold AuthService.refreshToken
    simp only [hv, hf]
    rw [if_neg (by simp [ha]), if_neg (by simp [hm])]
  · intro p hv hf
    unfold AuthService.refreshToken
    simp only [hv, hf]
  · intro p u hv hf ha
    unfold AuthService.refreshToken
    simp only [hv, hf]
    rw [if_pos ha]
  · intro e hv
    unfold AuthService.refreshToken
    simp only [hv]

/-- Witness for the amended refresh theorem: the verifying but
unregistered token triggers revocation plus `InvalidRefreshToken` on
the concrete store, and an expired token propagates the codec
error. -/
theorem refresh_mints_iff_witness :
    AuthService.refreshToken cfg0 dbNoTok 20 tok0 =
      (updateUser dbNoTok userNoTok.clearRefreshTokens,
       .error (.authentication "Invalid refresh token")) ∧
    AuthService.refreshToken cfg0 db0 3000000 tok0 =
      (db0, .error (.authentication "Refresh token has expired")) :=
  ⟨(refresh_mints_iff cfg0 dbNoTok 20 tok0).2.1 { userId := 1 } userNoTok
      (by decide) (by decide) (by decide) (by decide),
   (refresh_mints_iff cfg0 db0 3000000 tok0).2.2.2.2
      (.authentication "Refresh token has expired") (by decide)⟩

/-- A refresh token accepted at one clock time is accepted at any
other time before its expiry (the other checks are clock-free). -/
theorem verifyRefreshToken_ok_at (cfg : Config) {t1 : Nat} (t2 : Nat)
    {tok : Token} {p : Payload}
    (h : verifyRefreshToken cfg t1 tok = .ok p) (h2 : t2 < tok.exp) :
    verifyRefreshToken cfg t2 tok = .ok p := by
  have hj : jwtVerify tok cfg.jwtRefreshSecret jwtIssuer jwtAudience t1 = .ok p := by
    unfold verifyRefreshToken at h
    cases hjv : jwtVerify tok cfg.jwtRefreshSecret jwtIssuer jwtAudience t1 with
    | ok q =>
      simp only [hjv] at h
      have hqp : q = p := by simpa using h
      rw [hqp]
    | error e => cases e <;> simp only [hjv] at h <;> simp at h
  have hj2 : jwtVerify tok cfg.jwtRefreshSecret jwtIssuer jwtAudience t2 = .ok p := by
    unfold jwtVerify at hj ⊢
    by_cases hs : tok.secret ≠ cfg.jwtRefreshSecret
    · rw [if_pos hs] at hj; exact absurd hj (by simp)
    · rw [if_neg hs] at hj ⊢
      by_cases he1 : tok.exp ≤ t1
      · rw [if_pos he1] at hj; exact absurd hj (by simp)
      · rw [if_neg he1] at hj
        rw [if_neg (Nat.not_le.mpr h2)]
        by_cases hia : tok.iss ≠ jwtIssuer ∨ tok.aud ≠ jwtAudience
        · rw [if_pos hia] at hj; exact absurd hj (by simp)
        · rw [if_neg hia] at hj ⊢
          exact hj
  unfold verifyRefreshToken
  simp only [hj2]

/-- C2: rotating `tokenA` succeeds and returns the freshly signed
`tokenB`; presenting `tokenA` again (still unexpired) fails with
`InvalidRefreshToken` and clears everything, after which even the
fresh `tokenB` fails with `InvalidRefreshToken` — reuse revokes the
whole chain. -/
theorem refresh_reuse_revokes_chain (cfg : Config) (db : List User)
    (t1 t2 t3 : Nat) (tA : Token) (p : Payload) (u : User)
    (hv1 : verifyRefreshToken cfg t1 tA = .ok p)
    (hf : findById db p.userId = some u)
    (hact : u.isActive = true)
    (hmem : u.refreshTokens.any (fun e => e.token == tA) = true)
    (hexp2 : t2 < tA.exp)
    (hne : generateRefreshToken cfg t1 { userId := u.id } ≠ tA)
    (hexp3 : t3 < t1 + cfg.jwtRefreshExpire) :
    ((AuthService.refreshToken cfg db t1 tA).2 =
        .ok (AuthService.generateTokens cfg t1 (u.removeRefreshToken tA)).2 ∧
      (AuthService.generateTokens cfg t1 (u.removeRefreshToken tA)).2.tokens.refreshToken =
        generateRefreshToken cfg t1 { userId := u.id }) ∧
    (AuthService.refreshToken cfg (AuthService.refreshToken cfg db t1 tA).1 t2 tA).2 =
      .error (.authentication "Invalid refresh token") ∧
    (AuthService.refreshToken cfg
        (AuthService.refreshToken cfg (AuthService.refreshToken cfg db t1 tA).1 t2 tA).1 t3
        (generateRefreshToken cfg t1 { userId := u.id })).2 =
      .error (.authentication "Invalid refresh token") := by
  have hr1 : AuthService.refreshToken cfg db t1 tA =
      (updateUser db (AuthService.generateTokens cfg t1 (u.removeRefreshToken tA)).1,
       .ok (AuthService.generateTokens cfg t1 (u.removeRefreshToken tA)).2) := by
    unfold AuthService.refreshToken
    simp only [hv1, hf]
    rw [if_neg (by simp [hact]), if_pos hmem]
  have hu2 : (AuthService.generateTokens cfg t1 (u.removeRefreshToken tA)).1 =
      (u.removeRefreshToken tA).addRefreshToken
        (generateRefreshToken cfg t1 { userId := u.id }) := rfl
  have hv2 : verifyRefreshToken cfg t2 tA = .ok p :=
    verifyRefreshToken_ok_at cfg t2 hv1 hexp2
  have hid2 : ((u.removeRefreshToken tA).addRefreshToken
      (generateRefreshToken cfg t1 { userId := u.id })).id = u.id := rfl
  have hf2 : findById
      (updateUser db (AuthService.generateTokens cfg t1 (u.removeRefreshToken tA)).1)
      p.userId =
      some ((u.removeRefreshToken tA).addRefreshToken
        (generateRefreshToken cfg t1 { userId := u.id })) := by
    rw [hu2]
    exact findById_updateUser hf hid2
  have hact2 : ((u.removeRefreshToken tA).addRefreshToken
      (generateRefreshToken cfg t1 { userId := u.id })).isActive = true := hact
  have hmem2 : (((u.removeRefreshToken tA).addRefreshToken
      (generateRefreshToken cfg t1 { userId := u.id })).refreshTokens.any
      (fun e => e.token == tA)) = false := by
    show ((u.refreshTokens.filter (fun e => e.token != tA)) ++
        [({ token := generateRefreshToken cfg t1 { userId := u.id } } : RefreshTokenEntry)]).any
        (fun e => e.token == tA) = false
    rw [List.any_append, Bool.or_eq_false_iff]
    constructor
    · rw [List.any_eq_false]
      intro e he
      have := (List.mem_filter.mp he).2
      simpa using this
    · simp [hne]
  have hr2 : AuthService.refreshToken cfg (AuthService.refreshToken cfg db t1 tA).1 t2 tA =
      (updateUser
        (updateUser db (AuthService.generateTokens cfg t1 (u.removeRefreshToken tA)).1)
        ((u.removeRefreshToken tA).addRefreshToken
          (generateRefreshToken cfg t1 { userId := u.id })).clearRefreshTokens,
       .error (.authentication "Invalid refresh token")) := by
    rw [hr1]
    unfold AuthService.refreshToken
    simp only [hv2, hf2]
    rw [if_neg (by simp [hact2]), if_neg (by simp [hmem2])]
  have hv3 : verifyRefreshToken cfg t3 (generateRefreshToken cfg t1 { userId := u.id }) =
      .ok { userId := u.id } := by
    unfold verifyRefreshToken jwtVerify generateRefreshToken jwtSign
    simp [Nat.not_le.mpr hexp3]
  have hid3 : (((u.removeRefreshToken tA).addRefreshToken
      (generateRefreshToken cfg t1 { userId := u.id })).clearRefreshTokens).id =
      ((u.removeRefreshToken tA).addRefreshToken
        (generateRefreshToken cfg t1 { userId := u.id })).id := rfl
  have hpu : u.id = p.userId := findById_id hf
  have hf3 : findById
      (updateUser
        (updateUser db (AuthService.generateTokens cfg t1 (u.removeRefreshToken tA)).1)
        ((u.removeRefreshToken tA).addRefreshToken
          (generateRefreshToken cfg t1 { userId := u.id })).clearRefreshTokens)
      u.id =
      some (((u.removeRefreshToken tA).addRefreshToken
        (generateRefreshToken cfg t1 { userId := u.id })).clearRefreshTokens) := by
    rw [hpu]
    exact findById_updateUser hf2 hid3
  refine ⟨⟨by rw [hr1], rfl⟩, by rw [hr2], ?_⟩
  rw [hr2]
  unfold AuthService.refreshToken
  simp only [hv3]
  simp only [hf3]
  rw [if_neg (by simp [User.clearRefreshTokens, hact2])]
  rw [if_neg (by simp [User.clearRefreshTokens])]

/-- Witness for the rotation-reuse chain on the concrete store: the
registered token rotates at time 20; re-presenting it at time 30
fails with `InvalidRefreshToken`, and the token issued by the
rotation then fails at time 40 as well. -/
theorem refresh_reuse_revokes_chain_witness :
    ((AuthService.refreshToken cfg0 db0 20 tok0).2 =
        .ok (AuthService.generateTokens cfg0 20 (user0.removeRefreshToken tok0)).2 ∧
      (AuthService.generateTokens cfg0 20 (user0.removeRefreshToken tok0)).2.tokens.refreshToken =
        generateRefreshToken cfg0 20 { userId := 1 }) ∧
    (AuthService.refreshToken cfg0 (AuthService.refreshToken cfg0 db0 20 tok0).1 30 tok0).2 =
      .error (.authentication "Invalid refresh token") ∧
    (AuthService.refreshToken cfg0
        (AuthService.refreshToken cfg0 (AuthService.refreshToken cfg0 db0 20 tok0).1 30 tok0).1
        40 (generateRefreshToken cfg0 20 { userId := 1 })).2 =
      .error (.authentication "Invalid refresh token") :=
  refresh_reuse_revokes_chain cfg0 db0 20 30 40 tok0 { userId := 1 } user0
    (by decide) (by decide) (by decide) (by decide) (by decide) (by decide) (by decide)
